import Mathlib

/-!
Verification of `scripts/xamarin.py`, the icon asset pipeline of the
Bitcoin-Icons repository.

The script is shallowly embedded below.  Python strings are Lean `String`s
(lists of characters); Python string slices, `str.replace`, `str.join`,
`str.startswith`, `os.path.basename` and `int(s, 16)` are modelled by small
executable functions over `List Char`.  The external collaborators
(`find -name "*.svg"`, `sed -i s/../../g`, `cp -r`, `rm -rf`, `inkscape -w W
-h H SRC -o OUT`) are modelled by their effect on an explicit filesystem
state: `find` enumerates files whose basename matches the glob, `sed` is
literal global substitution, `inkscape` emits a PNG record with the exact
requested pixel dimensions, and `rm -rf`/`cp -r` delete and copy whole
trees.  Exceptions (`GenerationError`, Python `ValueError` from `int`) are
modelled with `Except`; the error value records the user-visible payload.
Terminal output (`echo`/`secho`, the progress bar, and the
`try/except TypeError` around `secho`) has no filesystem effect and is not
modelled, except that `color_too_bright` and `get_complementary_color` are
still called in `generate_images` in program order, because exceptions they
raise abort the run.
-/

namespace Xamarin

/-! ### Character and hex-numeral primitives -/

/-- Models membership of a character in the digit set accepted by Python
`int(s, 16)`: `0-9`, `A-F`, `a-f` (by code point: 48-57, 65-70, 97-102). -/
def isPyHexDigit (c : Char) : Bool :=
  (48 ≤ c.toNat && c.toNat ≤ 57) || (65 ≤ c.toNat && c.toNat ≤ 70) ||
    (97 ≤ c.toNat && c.toNat ≤ 102)

/-- Value of a hex digit character (unspecified junk on non-digits; callers
guard with `isPyHexDigit`). -/
def hexDigitVal (c : Char) : Nat :=
  if 97 ≤ c.toNat then c.toNat - 87
  else if 65 ≤ c.toNat then c.toNat - 55
  else c.toNat - 48

/-- Positional base-16 value of a digit string, as computed by
`int(s, 16)`. -/
def hexListVal (l : List Char) : Nat :=
  l.foldl (fun a c => 16 * a + hexDigitVal c) 0

/-- Uppercase hex digit character, as produced by Python `"%X"`
formatting. -/
def hexDigitChar (m : Nat) : Char :=
  if m < 10 then Char.ofNat (48 + m) else Char.ofNat (55 + m)

/-- Errors the script can raise.  `generation` is the script's own
`GenerationError`; `valueError` models Python's `ValueError` from
`int(lit, 16)`, carrying the offending literal. -/
inductive PipeError where
  | generation (msg : String)
  | valueError (lit : String)
deriving DecidableEq

/-- Characters Python's int-literal parser skips as surrounding
whitespace (the `Py_UNICODE_ISSPACE` class restricted to ASCII: tab
through carriage return, the C0 separators FS..US, and space). -/
def isPySpace (c : Char) : Bool :=
  (9 ≤ c.toNat && c.toNat ≤ 13) || (28 ≤ c.toNat && c.toNat ≤ 32)

/-- After the first digit of an `int(s, 16)` literal: consume further
digits, allowing a single underscore between two digits; stop at the first
other character, returning the accumulated value and the rest; fail
(`none`) on a misplaced underscore. -/
def digitsTail : Nat → List Char → Option (Nat × List Char)
  | acc, [] => some (acc, [])
  | acc, c :: cs =>
    if isPyHexDigit c then digitsTail (16 * acc + hexDigitVal c) cs
    else if c = '_' then
      match cs with
      | [] => none
      | d :: ds => if isPyHexDigit d then digitsTail (16 * acc + hexDigitVal d) ds else none
    else some (acc, c :: cs)

/-- Optional sign of an `int(s, 16)` literal: the sign factor and the
remaining characters. -/
def pySignSplit (l : List Char) : Int × List Char :=
  match l with
  | [] => (1, [])
  | c :: cs => if c = '+' then (1, cs) else if c = '-' then ((-1 : Int), cs) else (1, c :: cs)

/-- Optional `0x`/`0X` radix marker of an `int(s, 16)` literal, with the
single underscore Python permits right after it. -/
def skipRadix (l : List Char) : List Char :=
  match l with
  | c0 :: c1 :: rest =>
    if c0 = '0' && (c1 = 'x' || c1 = 'X') then
      match rest with
      | c2 :: rest2 => if c2 = '_' then rest2 else c2 :: rest2
      | [] => []
    else c0 :: c1 :: rest
  | l => l

/-- Models the grammar of Python `int(s, 16)` over the ASCII repertoire:
optional surrounding whitespace, an optional sign, an optional `0x`/`0X`
marker, then one or more hex digits with single underscores allowed
between digits (and one directly after the marker).  Returns the signed
value, or `none` where `int` raises `ValueError`.  (Non-ASCII input —
Unicode whitespace and Unicode decimal digits, which CPython maps to
ASCII before parsing — is not modelled; theorems that quantify over
arbitrary strings restrict themselves to ASCII.) -/
def pyIntParse16 (l : List Char) : Option Int :=
  let l1 := l.dropWhile isPySpace
  let s := pySignSplit l1
  let l2 := skipRadix s.2
  match l2 with
  | [] => none
  | c :: cs =>
    if isPyHexDigit c then
      match digitsTail (hexDigitVal c) cs with
      | none => none
      | some (v, rest) => if rest.all isPySpace then some (s.1 * (v : Int)) else none
    else none

/-- Models Python `int(s, 16)`: the parsed value, or `ValueError` carrying
the offending literal. -/
def pyIntHex (s : String) : Except PipeError Int :=
  match pyIntParse16 s.data with
  | some v => .ok v
  | none => .error (.valueError s)

/-! ### Python string-slice primitives -/

/-- Models the Python slice `s[:n]`. -/
def strTake (n : Nat) (s : String) : String := ⟨s.data.take n⟩

/-- Models the Python slice `s[n:]`. -/
def strDrop (n : Nat) (s : String) : String := ⟨s.data.drop n⟩

/-- Does `pat` occur at the very front of `s`?  Core of `str.startswith`
and of the substring scan. -/
def matchesAt : List Char → List Char → Bool
  | [], _ => true
  | _ :: _, [] => false
  | p :: ps, c :: cs => p == c && matchesAt ps cs

/-- Models Python `s.startswith(pat)`. -/
def pyStartsWith (pat s : String) : Bool := matchesAt pat.data s.data

/-- Does `pat` occur anywhere in `s`?  Models the Python substring test
`pat in s`. -/
def occursIn (pat : List Char) : List Char → Bool
  | [] => pat.isEmpty
  | c :: cs => matchesAt pat (c :: cs) || occursIn pat cs

/-- Fuelled left-to-right non-overlapping global replacement; `fuel` bounds
the scan position so the recursion is structural.  With `fuel ≥ s.length`
this is Python `s.replace(pat, rep)` and the effect of
`sed s/pat/rep/g` for a literal, newline-free, nonempty `pat`. -/
def replaceAllFuel (pat rep : List Char) : Nat → List Char → List Char
  | 0, s => s
  | _, [] => []
  | fuel + 1, c :: cs =>
    if matchesAt pat (c :: cs) && !pat.isEmpty then
      rep ++ replaceAllFuel pat rep fuel (List.drop (pat.length - 1) cs)
    else
      c :: replaceAllFuel pat rep fuel cs

/-- Left-to-right non-overlapping global replacement of `pat` by `rep`. -/
def replaceAll (pat rep s : List Char) : List Char :=
  replaceAllFuel pat rep s.length s

/-- Models Python `s.replace(pat, rep)` (all occurrences, left to right,
non-overlapping). -/
def pyReplace (s pat rep : String) : String := ⟨replaceAll pat.data rep.data s.data⟩

/-- Models `sed -i s/pat/rep/g` applied to a file's content, for the
literal, newline-free patterns the script uses (per-line substitution of a
newline-free literal equals whole-content substitution). -/
def sedReplaceAll (pat rep content : String) : String :=
  ⟨replaceAll pat.data rep.data content.data⟩

/-- Models Python `sep.join(l)`. -/
def joinStr (sep : String) : List String → String
  | [] => ""
  | [x] => x
  | x :: y :: xs => x ++ sep ++ joinStr sep (y :: xs)

/-- Characters of `os.path.basename`: everything after the last slash. -/
def basenameL (l : List Char) : List Char :=
  l.foldl (fun acc c => if c = '/' then [] else acc ++ [c]) []

/-- Models `os.path.basename` (the script's paths never end in a slash). -/
def basename (s : String) : String := ⟨basenameL s.data⟩

/-- Does `s` end with `suf`?  Used to model the glob `-name "*.svg"` of
`find`, which matches exactly the basenames ending in `.svg`. -/
def pyEndsWith (suf s : String) : Bool :=
  matchesAt suf.data (s.data.drop (s.data.length - suf.data.length))

/-- A file is listed by `find <dir> -name "*.svg"` iff its basename matches
the glob `*.svg`. -/
def isSvgName (p : String) : Bool := pyEndsWith ".svg" (basename p)

/-! ### Uppercase zero-padded hex formatting, Python `"#%06X" % n` -/

/-- Big-endian uppercase hex digits of `n`, fuelled so the recursion is
structural; with `fuel > 0` and `n < 16 ^ fuel` this is the digit string
printed by Python `"%X"`. -/
def natHexDigitsAux : Nat → Nat → List Char
  | 0, _ => []
  | fuel + 1, n =>
    if n < 16 then [hexDigitChar n]
    else natHexDigitsAux fuel (n / 16) ++ [hexDigitChar (n % 16)]

/-- Uppercase hex digit string of `n` (at least one digit), as printed by
Python `"%X" % n`. -/
def natHexDigits (n : Nat) : List Char := natHexDigitsAux (n + 1) n

/-- Models Python `"%06X" % n` for `n ≥ 0`: the uppercase hex digits of
`n`, left-padded with zeros to a minimum width of six. -/
def pyFormatHex06 (n : Nat) : String :=
  ⟨List.replicate (6 - (natHexDigits n).length) '0' ++ natHexDigits n⟩

/-- Models Python `^` on arbitrary ints (bitwise XOR on the infinite
two's-complement representation): `Int.negSucc m` has the bits of `~m`. -/
def pyIntXor (a b : Int) : Int :=
  match a, b with
  | .ofNat m, .ofNat n => .ofNat (m ^^^ n)
  | .negSucc m, .ofNat n => .negSucc (m ^^^ n)
  | .ofNat m, .negSucc n => .negSucc (m ^^^ n)
  | .negSucc m, .negSucc n => .ofNat (m ^^^ n)

/-- Models Python `"%06X" % n` on arbitrary ints: negative values print a
minus sign and the digits of the absolute value, the sign counting toward
the zero-padded width of six. -/
def pyFormatHex06Int (n : Int) : String :=
  match n with
  | .ofNat m => pyFormatHex06 m
  | .negSucc m =>
    "-" ++ (⟨List.replicate (5 - (natHexDigits (m + 1)).length) '0' ++ natHexDigits (m + 1)⟩ : String)

/-! ### The named-color table

`matplotlib.colors.cnames` is an external dependency of the script: the
CSS4 named-color dictionary (148 entries, insertion order alphabetical).
It is reproduced here as an association list; the script only tests
membership, looks values up, and joins the keys for the error message. -/

def cnames : List (String × String) := [
  ("aliceblue", "#F0F8FF"), ("antiquewhite", "#FAEBD7"), ("aqua", "#00FFFF"),
  ("aquamarine", "#7FFFD4"), ("azure", "#F0FFFF"), ("beige", "#F5F5DC"),
  ("bisque", "#FFE4C4"), ("black", "#000000"), ("blanchedalmond", "#FFEBCD"),
  ("blue", "#0000FF"), ("blueviolet", "#8A2BE2"), ("brown", "#A52A2A"),
  ("burlywood", "#DEB887"), ("cadetblue", "#5F9EA0"), ("chartreuse", "#7FFF00"),
  ("chocolate", "#D2691E"), ("coral", "#FF7F50"), ("cornflowerblue", "#6495ED"),
  ("cornsilk", "#FFF8DC"), ("crimson", "#DC143C"), ("cyan", "#00FFFF"),
  ("darkblue", "#00008B"), ("darkcyan", "#008B8B"), ("darkgoldenrod", "#B8860B"),
  ("darkgray", "#A9A9A9"), ("darkgreen", "#006400"), ("darkgrey", "#A9A9A9"),
  ("darkkhaki", "#BDB76B"), ("darkmagenta", "#8B008B"), ("darkolivegreen", "#556B2F"),
  ("darkorange", "#FF8C00"), ("darkorchid", "#9932CC"), ("darkred", "#8B0000"),
  ("darksalmon", "#E9967A"), ("darkseagreen", "#8FBC8F"), ("darkslateblue", "#483D8B"),
  ("darkslategray", "#2F4F4F"), ("darkslategrey", "#2F4F4F"), ("darkturquoise", "#00CED1"),
  ("darkviolet", "#9400D3"), ("deeppink", "#FF1493"), ("deepskyblue", "#00BFFF"),
  ("dimgray", "#696969"), ("dimgrey", "#696969"), ("dodgerblue", "#1E90FF"),
  ("firebrick", "#B22222"), ("floralwhite", "#FFFAF0"), ("forestgreen", "#228B22"),
  ("fuchsia", "#FF00FF"), ("gainsboro", "#DCDCDC"), ("ghostwhite", "#F8F8FF"),
  ("gold", "#FFD700"), ("goldenrod", "#DAA520"), ("gray", "#808080"),
  ("green", "#008000"), ("greenyellow", "#ADFF2F"), ("grey", "#808080"),
  ("honeydew", "#F0FFF0"), ("hotpink", "#FF69B4"), ("indianred", "#CD5C5C"),
  ("indigo", "#4B0082"), ("ivory", "#FFFFF0"), ("khaki", "#F0E68C"),
  ("lavender", "#E6E6FA"), ("lavenderblush", "#FFF0F5"), ("lawngreen", "#7CFC00"),
  ("lemonchiffon", "#FFFACD"), ("lightblue", "#ADD8E6"), ("lightcoral", "#F08080"),
  ("lightcyan", "#E0FFFF"), ("lightgoldenrodyellow", "#FAFAD2"), ("lightgray", "#D3D3D3"),
  ("lightgreen", "#90EE90"), ("lightgrey", "#D3D3D3"), ("lightpink", "#FFB6C1"),
  ("lightsalmon", "#FFA07A"), ("lightseagreen", "#20B2AA"), ("lightskyblue", "#87CEFA"),
  ("lightslategray", "#778899"), ("lightslategrey", "#778899"), ("lightsteelblue", "#B0C4DE"),
  ("lightyellow", "#FFFFE0"), ("lime", "#00FF00"), ("limegreen", "#32CD32"),
  ("linen", "#FAF0E6"), ("magenta", "#FF00FF"), ("maroon", "#800000"),
  ("mediumaquamarine", "#66CDAA"), ("mediumblue", "#0000CD"), ("mediumorchid", "#BA55D3"),
  ("mediumpurple", "#9370DB"), ("mediumseagreen", "#3CB371"), ("mediumslateblue", "#7B68EE"),
  ("mediumspringgreen", "#00FA9A"), ("mediumturquoise", "#48D1CC"), ("mediumvioletred", "#C71585"),
  ("midnightblue", "#191970"), ("mintcream", "#F5FFFA"), ("mistyrose", "#FFE4E1"),
  ("moccasin", "#FFE4B5"), ("navajowhite", "#FFDEAD"), ("navy", "#000080"),
  ("oldlace", "#FDF5E6"), ("olive", "#808000"), ("olivedrab", "#6B8E23"),
  ("orange", "#FFA500"), ("orangered", "#FF4500"), ("orchid", "#DA70D6"),
  ("palegoldenrod", "#EEE8AA"), ("palegreen", "#98FB98"), ("paleturquoise", "#AFEEEE"),
  ("palevioletred", "#DB7093"), ("papayawhip", "#FFEFD5"), ("peachpuff", "#FFDAB9"),
  ("peru", "#CD853F"), ("pink", "#FFC0CB"), ("plum", "#DDA0DD"),
  ("powderblue", "#B0E0E6"), ("purple", "#800080"), ("rebeccapurple", "#663399"),
  ("red", "#FF0000"), ("rosybrown", "#BC8F8F"), ("royalblue", "#4169E1"),
  ("saddlebrown", "#8B4513"), ("salmon", "#FA8072"), ("sandybrown", "#F4A460"),
  ("seagreen", "#2E8B57"), ("seashell", "#FFF5EE"), ("sienna", "#A0522D"),
  ("silver", "#C0C0C0"), ("skyblue", "#87CEEB"), ("slateblue", "#6A5ACD"),
  ("slategray", "#708090"), ("slategrey", "#708090"), ("snow", "#FFFAFA"),
  ("springgreen", "#00FF7F"), ("steelblue", "#4682B4"), ("tan", "#D2B48C"),
  ("teal", "#008080"), ("thistle", "#D8BFD8"), ("tomato", "#FF6347"),
  ("turquoise", "#40E0D0"), ("violet", "#EE82EE"), ("wheat", "#F5DEB3"),
  ("white", "#FFFFFF"), ("whitesmoke", "#F5F5F5"), ("yellow", "#FFFF00"),
  ("yellowgreen", "#9ACD32")]

/-- The message of the `GenerationError` raised by `parse_color`, from its
f-string: `Invalid color: {color}, not found on matplotlib.colors.cnames,
available colors: {', '.join(colors.cnames.keys())}`. -/
def invalidColorMessage (color : String) : String :=
  "Invalid color: " ++ color ++ ", not found on matplotlib.colors.cnames" ++
    ", available colors: " ++ joinStr ", " (cnames.map Prod.fst)

/-- `parse_color`: a string starting with `#` is returned unchanged (no
validation); otherwise it must be a key of `cnames`, else
`GenerationError`. -/
def parse_color (color : String) : Except PipeError String :=
  if pyStartsWith "#" color then .ok color
  else
    match List.lookup color cnames with
    | none => .error (.generation (invalidColorMessage color))
    | some hex => .ok hex

/-- `get_complementary_color`: strip the leading `#` with the slice
`color[1:]`, parse with `int(color, 16)`, XOR with `0xFFFFFF`, and format
with `"#%06X"`. -/
def get_complementary_color (color : String) : Except PipeError String :=
  let color1 := strDrop 1 color
  match pyIntHex color1 with
  | .error e => .error e
  | .ok color_int =>
    let comp_color := pyIntXor 0xFFFFFF color_int
    .ok ("#" ++ pyFormatHex06Int comp_color)

/-- `color_too_bright`: re-resolve the color, strip `#`, parse the slices
`[:2]`, `[2:4]`, `[4:]` into `c_r`, `c_b`, `c_g` (in that source order and
with those source variable names), and compare the weighted sum, divided by
1000 (Python float division, exact here), with 155. -/
def color_too_bright (color : String) : Except PipeError Bool :=
  match parse_color color with
  | .error e => .error e
  | .ok color_hex0 =>
    let color_hex := strDrop 1 color_hex0
    match pyIntHex (strTake 2 color_hex) with
    | .error e => .error e
    | .ok c_r =>
      match pyIntHex (strTake 2 (strDrop 2 color_hex)) with
      | .error e => .error e
      | .ok c_b =>
        match pyIntHex (strDrop 4 color_hex) with
        | .error e => .error e
        | .ok c_g =>
          let brightness : ℚ := ((c_r * 299 + c_g * 587 + c_b * 114 : ℤ) : ℚ) / 1000
          .ok (decide (155 < brightness))

deriving instance DecidableEq for Except

/-- Uppercase hex digits and decimal digits: the character set `"%06X"`
formatting can emit.  Specification-side helper used to state the amended
double-complement claim. -/
def isUpperHexDigit (c : Char) : Bool :=
  (48 ≤ c.toNat && c.toNat ≤ 57) || (65 ≤ c.toNat && c.toNat ≤ 70)

/-- Exactly `k` big-endian hex digits of `n` (proof-side normal form of the
zero-padded formatter: for `n < 16 ^ k` it equals pad-to-`k` of
`natHexDigits n`). -/
def hexFix : Nat → Nat → List Char
  | 0, _ => []
  | k + 1, n => hexFix k (n / 16) ++ [hexDigitChar (n % 16)]

/-- Modelled from the claim wording of C3 (for comparison with
`color_too_bright`): weights 299, 587, 114 applied to the first, second and
third parsed bytes in that order, divided by 1000, compared with 155. -/
def claimedBrightness (b0 b1 b2 : Nat) : Bool :=
  decide ((155 : ℚ) < ((b0 * 299 + b1 * 587 + b2 * 114 : ℕ) : ℚ) / 1000)

/-! ### Filesystem state and the pipeline -/

/-- A source file of the `svg/` tree: its path relative to `svg/` and its
text content. -/
structure SvgFile where
  path : String
  content : String
deriving DecidableEq

/-- A PNG emitted by an `inkscape -w width -h height src -o path` call:
output path, exact pixel dimensions, and the (recolored) SVG text it was
rasterized from. -/
structure Png where
  path : String
  width : Nat
  height : Nat
  source : String
deriving DecidableEq

/-- Contents of the `xamarin/` scratch directory. -/
structure XamarinDir where
  svg : List SvgFile
  ios : List Png
  android : List Png
deriving DecidableEq

/-- Filesystem state: the source `svg/` tree at the project root and the
`xamarin/` scratch directory (absent or present). -/
structure FS where
  svgTree : List SvgFile
  xamarin : Option XamarinDir
deriving DecidableEq

/-- `cleanup`: `rm -rf xamarin` if it exists. -/
def cleanup (fs : FS) : FS := { fs with xamarin := none }

/-- `copy_svg_to_xamarin`: create `xamarin/` and `cp -r svg xamarin`,
yielding `xamarin/svg` as a copy of the source tree (with empty `ios/` and
`android/` output areas still to be created). -/
def copy_svg_to_xamarin (fs : FS) : FS :=
  { fs with xamarin := some { svg := fs.svgTree, ios := [], android := [] } }

/-- Absolute path, relative to the project root, under which `find` reports
a copied SVG whose path relative to `svg/` is `p`. -/
def foundPath (p : String) : String := "xamarin/svg/" ++ p

/-- Effect of the first `find … -exec sed -i s/fill="black"/…/g` pass on a
single file. -/
def sed_fill_file (fill_color_hex : String) (f : SvgFile) : SvgFile :=
  if isSvgName f.path then
    { f with content := sedReplaceAll "fill=\"black\"" ("fill=\"" ++ fill_color_hex ++ "\"") f.content }
  else f

/-- Effect of the second `find … -exec sed -i s/stroke="black"/…/g` pass on
a single file. -/
def sed_stroke_file (stroke_color_hex : String) (f : SvgFile) : SvgFile :=
  if isSvgName f.path then
    { f with content := sedReplaceAll "stroke=\"black\"" ("stroke=\"" ++ stroke_color_hex ++ "\"") f.content }
  else f

/-- `replace_color_on_svgs`: the fill pass over every `*.svg` under
`xamarin/svg`, then the stroke pass. -/
def replace_color_on_svgs (fill_color_hex stroke_color_hex : String) (fs : FS) : FS :=
  match fs.xamarin with
  | none => fs
  | some x =>
    let newSvg := (x.svg.map (sed_fill_file fill_color_hex)).map (sed_stroke_file stroke_color_hex)
    { fs with xamarin := some { x with svg := newSvg } }

/-- The base-name computation of `create_ios_images`:
`filename.replace(".svg", "").replace("-", "_")`. -/
def ios_no_ext (filename : String) : String :=
  pyReplace (pyReplace filename ".svg" "") "-" "_"

/-- The base-name computation of `create_android_images`:
`filename.replace(".svg", "").replace("-", "_")`. -/
def android_no_ext (filename : String) : String :=
  pyReplace (pyReplace filename ".svg" "") "-" "_"

/-- `create_ios_images` on the enumerated `*.svg` files: per file, the base
name (with `filled_` prefix when `"svg/filled" in svg_file`) and three
inkscape calls at 24, 48, 72 pixels. -/
def create_ios_images (svgs : List SvgFile) : List Png :=
  ((svgs.filter (fun f => isSvgName f.path)).map (fun f =>
    let svg_file := foundPath f.path
    let filename := basename svg_file
    let base0 := ios_no_ext filename
    let no_ext_filename :=
      if occursIn ("svg/filled").data svg_file.data then "filled_" ++ base0 else base0
    [ { path := "xamarin/ios/" ++ no_ext_filename ++ ".png", width := 24, height := 24, source := f.content },
      { path := "xamarin/ios/" ++ no_ext_filename ++ "@2x.png", width := 48, height := 48, source := f.content },
      { path := "xamarin/ios/" ++ no_ext_filename ++ "@3x.png", width := 72, height := 72, source := f.content } ])).flatten

/-- `create_android_images` on the enumerated `*.svg` files: per file, the
base name (no `filled_` handling in this function) and five inkscape calls
into the density buckets at 60, 48, 64, 96, 128 pixels. -/
def create_android_images (svgs : List SvgFile) : List Png :=
  ((svgs.filter (fun f => isSvgName f.path)).map (fun f =>
    let svg_file := foundPath f.path
    let filename := basename svg_file
    let no_ext_filename := android_no_ext filename
    [ { path := "xamarin/android/drawable/" ++ no_ext_filename ++ ".png", width := 60, height := 60, source := f.content },
      { path := "xamarin/android/drawable-hdpi/" ++ no_ext_filename ++ ".png", width := 48, height := 48, source := f.content },
      { path := "xamarin/android/drawable-xhdpi/" ++ no_ext_filename ++ ".png", width := 64, height := 64, source := f.content },
      { path := "xamarin/android/drawable-xxhdpi/" ++ no_ext_filename ++ ".png", width := 96, height := 96, source := f.content },
      { path := "xamarin/android/drawable-xxxhdpi/" ++ no_ext_filename ++ ".png", width := 128, height := 128, source := f.content } ])).flatten

/-- Filesystem effect of `create_ios_images`. -/
def create_ios_images_step (fs : FS) : FS :=
  match fs.xamarin with
  | none => fs
  | some x => { fs with xamarin := some { x with ios := create_ios_images x.svg } }

/-- Filesystem effect of `create_android_images`. -/
def create_android_images_step (fs : FS) : FS :=
  match fs.xamarin with
  | none => fs
  | some x => { fs with xamarin := some { x with android := create_android_images x.svg } }

/-- `generate_images`, the whole pipeline in program order: resolve both
colors, compute the brightness flag and the complementary color (both only
displayed, but able to raise), then `cleanup`, copy, recolor, and the two
exporters.  Any raised exception propagates immediately; every raising
point precedes the first filesystem mutation (`cleanup`), so on error the
state is returned untouched. -/
def generate_images (fill_color stroke_color : String) (fs : FS) :
    Except PipeError Unit × FS :=
  match parse_color fill_color with
  | .error e => (.error e, fs)
  | .ok fill_color_hex =>
    match parse_color stroke_color with
    | .error e => (.error e, fs)
    | .ok stroke_color_hex =>
      match color_too_bright fill_color with
      | .error e => (.error e, fs)
      | .ok _fg_bright =>
        match get_complementary_color fill_color_hex with
        | .error e => (.error e, fs)
        | .ok _comp_color =>
          let fs1 := cleanup fs
          let fs2 := copy_svg_to_xamarin fs1
          let fs3 := replace_color_on_svgs fill_color_hex stroke_color_hex fs2
          let fs4 := create_ios_images_step fs3
          let fs5 := create_android_images_step fs4
          (.ok (), fs5)

/-! ### Helper lemmas: substring scanning and replacement -/

theorem matchesAt_append_self (p s : List Char) : matchesAt p (p ++ s) = true := by
  induction p with
  | nil => rfl
  | cons a q ih => simp [matchesAt, ih]

theorem matchesAt_self (p : List Char) : matchesAt p p = true := by
  simpa using matchesAt_append_self p []

theorem occursIn_of_matchesAt {p s : List Char} (h : matchesAt p s = true) :
    occursIn p s = true := by
  cases s with
  | nil =>
    cases p with
    | nil => rfl
    | cons a q => simp [matchesAt] at h
  | cons c cs => simp [occursIn, h]

theorem occursIn_append_right (p a b : List Char) (h : occursIn p b = true) :
    occursIn p (a ++ b) = true := by
  induction a with
  | nil => simpa
  | cons x a ih => simp [List.cons_append, occursIn, ih]

theorem occursIn_middle (p a b : List Char) : occursIn p (a ++ (p ++ b)) = true := by
  induction a with
  | nil => simpa using occursIn_of_matchesAt (matchesAt_append_self p b)
  | cons x a ih => simp [List.cons_append, occursIn, ih]

theorem occursIn_joinStr (sep x : String) (l : List String) (h : x ∈ l) :
    occursIn x.data (joinStr sep l).data = true := by
  induction l with
  | nil => cases h
  | cons y ys ih =>
    cases ys with
    | nil =>
      have hx : x = y := by simpa using h
      subst hx
      exact occursIn_of_matchesAt (matchesAt_self x.data)
    | cons z zs =>
      rcases List.mem_cons.mp h with hx | hx
      · subst hx
        show occursIn x.data ((x ++ sep ++ joinStr sep (z :: zs)).data) = true
        rw [String.data_append, String.data_append, List.append_assoc]
        exact occursIn_of_matchesAt (matchesAt_append_self _ _)
      · show occursIn x.data ((y ++ sep ++ joinStr sep (z :: zs)).data) = true
        rw [String.data_append]
        exact occursIn_append_right _ _ _ (ih hx)

theorem replaceAllFuel_of_not_occurs (pat rep : List Char) (fuel : Nat) (s : List Char)
    (h : occursIn pat s = false) : replaceAllFuel pat rep fuel s = s := by
  induction fuel generalizing s with
  | zero => cases s <;> rfl
  | succ fuel ih =>
    cases s with
    | nil => rfl
    | cons c cs =>
      simp [occursIn] at h
      simp [replaceAllFuel, h.1, ih cs h.2]

theorem replaceAll_of_not_occurs (pat rep s : List Char)
    (h : occursIn pat s = false) : replaceAll pat rep s = s :=
  replaceAllFuel_of_not_occurs pat rep s.length s h

/-! ### Helper lemmas: hex digits, parsing and formatting -/

theorem hexDigitVal_hexDigitChar : ∀ m, m < 16 → hexDigitVal (hexDigitChar m) = m := by
  decide

theorem isPyHexDigit_hexDigitChar : ∀ m, m < 16 → isPyHexDigit (hexDigitChar m) = true := by
  decide

theorem isPyHexDigit_of_isUpperHexDigit {c : Char} (h : isUpperHexDigit c = true) :
    isPyHexDigit c = true := by
  simp [isUpperHexDigit] at h
  simp [isPyHexDigit]
  omega

theorem hexDigitVal_lt_16 {c : Char} (h : isPyHexDigit c = true) : hexDigitVal c < 16 := by
  simp [isPyHexDigit] at h
  unfold hexDigitVal
  split_ifs <;> omega

theorem hexDigitChar_hexDigitVal {c : Char} (h : isUpperHexDigit c = true) :
    hexDigitChar (hexDigitVal c) = c := by
  simp [isUpperHexDigit] at h
  rcases h with ⟨h1, h2⟩ | ⟨h1, h2⟩
  · have e1 : hexDigitVal c = c.toNat - 48 := by unfold hexDigitVal; split_ifs <;> omega
    rw [e1]
    unfold hexDigitChar
    rw [if_pos (by omega)]
    have e2 : 48 + (c.toNat - 48) = c.toNat := by omega
    rw [e2, Char.ofNat_toNat]
  · have e1 : hexDigitVal c = c.toNat - 55 := by unfold hexDigitVal; split_ifs <;> omega
    rw [e1]
    unfold hexDigitChar
    rw [if_neg (by omega)]
    have e2 : 55 + (c.toNat - 55) = c.toNat := by omega
    rw [e2, Char.ofNat_toNat]

theorem hexListVal_append_digit (l : List Char) (c : Char) :
    hexListVal (l ++ [c]) = 16 * hexListVal l + hexDigitVal c := by
  simp [hexListVal, List.foldl_append]

theorem hexListVal_lt (l : List Char) (h : ∀ c ∈ l, hexDigitVal c < 16) :
    hexListVal l < 16 ^ l.length := by
  induction l using List.reverseRecOn with
  | nil => simp [hexListVal]
  | append_singleton l c ih =>
    have h1 : hexListVal l < 16 ^ l.length := ih (fun d hd => h d (by simp [hd]))
    have h2 : hexDigitVal c < 16 := h c (by simp)
    rw [hexListVal_append_digit, List.length_append, List.length_singleton, pow_succ]
    generalize 16 ^ l.length = X at h1 ⊢
    omega

theorem hexFix_length (k n : Nat) : (hexFix k n).length = k := by
  induction k generalizing n with
  | zero => rfl
  | succ k ih => simp [hexFix, ih]

theorem hexFix_all_hex (k n : Nat) : (hexFix k n).all isPyHexDigit = true := by
  induction k generalizing n with
  | zero => rfl
  | succ k ih =>
    simp [hexFix, List.all_append, ih]
    exact isPyHexDigit_hexDigitChar _ (Nat.mod_lt _ (by norm_num))

theorem hexListVal_hexFix (k n : Nat) (h : n < 16 ^ k) : hexListVal (hexFix k n) = n := by
  induction k generalizing n with
  | zero =>
    rw [pow_zero] at h
    have e : n = 0 := by omega
    subst e
    rfl
  | succ k ih =>
    have hdiv : n / 16 < 16 ^ k := by
      rw [Nat.div_lt_iff_lt_mul (by norm_num)]
      rw [← pow_succ]
      exact h
    show hexListVal (hexFix k (n / 16) ++ [hexDigitChar (n % 16)]) = n
    rw [hexListVal_append_digit, ih (n / 16) hdiv,
      hexDigitVal_hexDigitChar _ (Nat.mod_lt _ (by norm_num))]
    omega

theorem hexFix_hexListVal (l : List Char) (h : ∀ c ∈ l, isUpperHexDigit c = true) :
    hexFix l.length (hexListVal l) = l := by
  induction l using List.reverseRecOn with
  | nil => rfl
  | append_singleton l c ih =>
    have hc : isUpperHexDigit c = true := h c (by simp)
    have hcv : hexDigitVal c < 16 := hexDigitVal_lt_16 (isPyHexDigit_of_isUpperHexDigit hc)
    rw [hexListVal_append_digit, List.length_append, List.length_singleton]
    have hdiv : (16 * hexListVal l + hexDigitVal c) / 16 = hexListVal l := by omega
    have hmod : (16 * hexListVal l + hexDigitVal c) % 16 = hexDigitVal c := by omega
    show hexFix l.length ((16 * hexListVal l + hexDigitVal c) / 16) ++
        [hexDigitChar ((16 * hexListVal l + hexDigitVal c) % 16)] = l ++ [c]
    rw [hdiv, hmod, ih (fun d hd => h d (by simp [hd])), hexDigitChar_hexDigitVal hc]

theorem natHexDigitsAux_small (fuel n : Nat) (h : n < 16) :
    natHexDigitsAux (fuel + 1) n = [hexDigitChar n] := by
  simp [natHexDigitsAux, h]

theorem natHexDigitsAux_step (fuel n : Nat) (h : ¬ n < 16) :
    natHexDigitsAux (fuel + 1) n = natHexDigitsAux fuel (n / 16) ++ [hexDigitChar (n % 16)] := by
  simp [natHexDigitsAux, h]

theorem natHexDigitsAux_fuel_succ (fuel n : Nat) (h1 : 1 ≤ fuel) (h2 : n < 16 ^ fuel) :
    natHexDigitsAux fuel n = natHexDigitsAux (fuel + 1) n := by
  induction fuel generalizing n with
  | zero => omega
  | succ fuel ih =>
    by_cases hn : n < 16
    · rw [natHexDigitsAux_small _ _ hn, natHexDigitsAux_small _ _ hn]
    · have hf : 1 ≤ fuel := by
        rcases Nat.eq_zero_or_pos fuel with h0 | h0
        · subst h0; rw [pow_one] at h2; omega
        · exact h0
      have hdiv : n / 16 < 16 ^ fuel := by
        rw [Nat.div_lt_iff_lt_mul (by norm_num)]
        rw [← pow_succ]
        exact h2
      rw [natHexDigitsAux_step fuel n hn, natHexDigitsAux_step (fuel + 1) n hn,
        ih (n / 16) hf hdiv]

theorem natHexDigitsAux_fuel_le (f g n : Nat) (hf : 1 ≤ f) (hfg : f ≤ g) (h : n < 16 ^ f) :
    natHexDigitsAux f n = natHexDigitsAux g n := by
  induction g, hfg using Nat.le_induction with
  | base => rfl
  | succ g hg ih =>
    rw [ih]
    exact natHexDigitsAux_fuel_succ g n (by omega)
      (Nat.lt_of_lt_of_le h (Nat.pow_le_pow_right (by norm_num) hg))

theorem natHexDigits_eq_aux6 (n : Nat) (h : n < 16 ^ 6) :
    natHexDigits n = natHexDigitsAux 6 n := by
  by_cases hn : n < 16
  · unfold natHexDigits
    rw [natHexDigitsAux_small n n hn]
    rw [show (6 : ℕ) = 5 + 1 from rfl, natHexDigitsAux_small 5 n hn]
  · unfold natHexDigits
    exact (natHexDigitsAux_fuel_le 6 (n + 1) n (by norm_num) (by omega) h).symm

theorem hexFix_zero (k : Nat) : hexFix k 0 = List.replicate k '0' := by
  induction k with
  | zero => rfl
  | succ k ih =>
    show hexFix k (0 / 16) ++ [hexDigitChar (0 % 16)] = List.replicate (k + 1) '0'
    rw [Nat.zero_div, Nat.zero_mod, ih]
    rw [show hexDigitChar 0 = '0' from by decide]
    exact (List.replicate_succ' k '0').symm

theorem pad_natHexDigitsAux (k n : Nat) (hk : 1 ≤ k) (h : n < 16 ^ k) :
    List.replicate (k - (natHexDigitsAux k n).length) '0' ++ natHexDigitsAux k n =
      hexFix k n := by
  induction k generalizing n with
  | zero => omega
  | succ k ih =>
    by_cases hn : n < 16
    · rw [natHexDigitsAux_small k n hn]
      show List.replicate (k + 1 - 1) '0' ++ [hexDigitChar n] = hexFix (k + 1) n
      rw [Nat.add_sub_cancel]
      show List.replicate k '0' ++ [hexDigitChar n] =
        hexFix k (n / 16) ++ [hexDigitChar (n % 16)]
      rw [Nat.div_eq_of_lt hn, Nat.mod_eq_of_lt hn, hexFix_zero]
    · have hk' : 1 ≤ k := by
        rcases Nat.eq_zero_or_pos k with h0 | h0
        · subst h0; rw [pow_one] at h; omega
        · exact h0
      have hdiv : n / 16 < 16 ^ k := by
        rw [Nat.div_lt_iff_lt_mul (by norm_num)]
        rw [← pow_succ]
        exact h
      rw [natHexDigitsAux_step k n hn, List.length_append, List.length_singleton]
      have e : k + 1 - ((natHexDigitsAux k (n / 16)).length + 1) =
          k - (natHexDigitsAux k (n / 16)).length := by omega
      rw [e, ← List.append_assoc, ih (n / 16) hk' hdiv]
      rfl

theorem pyFormatHex06_data (n : Nat) (h : n < 16 ^ 6) :
    (pyFormatHex06 n).data = hexFix 6 n := by
  show List.replicate (6 - (natHexDigits n).length) '0' ++ natHexDigits n = hexFix 6 n
  rw [natHexDigits_eq_aux6 n h]
  exact pad_natHexDigitsAux 6 n (by norm_num) h

/-! ### Helper lemma: the exact rational brightness comparison -/

theorem brightness_decide (s : Nat) :
    decide ((155 : ℚ) < ((s : ℕ) : ℚ) / 1000) = decide (155000 < s) := by
  rw [decide_eq_decide]
  rw [lt_div_iff₀ (by norm_num : (0 : ℚ) < 1000)]
  constructor
  · intro h2
    exact_mod_cast h2
  · intro h2
    exact_mod_cast h2

theorem brightness_decide_int (s : ℤ) :
    decide ((155 : ℚ) < ((s : ℤ) : ℚ) / 1000) = decide ((155000 : ℤ) < s) := by
  rw [decide_eq_decide]
  rw [lt_div_iff₀ (by norm_num : (0 : ℚ) < 1000)]
  constructor
  · intro h2
    exact_mod_cast h2
  · intro h2
    exact_mod_cast h2

/-! ### Helper lemmas: the int-literal parser on plain digit strings -/

theorem isPySpace_of_isPyHexDigit {c : Char} (h : isPyHexDigit c = true) :
    isPySpace c = false := by
  simp [isPyHexDigit] at h
  simp [isPySpace]
  omega

theorem hexDigit_ne_plus {c : Char} (h : isPyHexDigit c = true) : c ≠ '+' := by
  intro hh
  rw [hh] at h
  exact absurd h (by decide)

theorem hexDigit_ne_minus {c : Char} (h : isPyHexDigit c = true) : c ≠ '-' := by
  intro hh
  rw [hh] at h
  exact absurd h (by decide)

theorem hexDigit_ne_x {c : Char} (h : isPyHexDigit c = true) : c ≠ 'x' := by
  intro hh
  rw [hh] at h
  exact absurd h (by decide)

theorem hexDigit_ne_X {c : Char} (h : isPyHexDigit c = true) : c ≠ 'X' := by
  intro hh
  rw [hh] at h
  exact absurd h (by decide)

theorem digitsTail_all_digits (acc : Nat) (l : List Char) (h : l.all isPyHexDigit = true) :
    digitsTail acc l = some (l.foldl (fun a c => 16 * a + hexDigitVal c) acc, []) := by
  induction l generalizing acc with
  | nil => rfl
  | cons c cs ih =>
    rw [List.all_cons, Bool.and_eq_true] at h
    have hstep : digitsTail acc (c :: cs) = digitsTail (16 * acc + hexDigitVal c) cs := by
      rw [digitsTail.eq_def]
      simp [h.1]
    rw [hstep, List.foldl_cons]
    exact ih _ h.2

theorem pyIntParse16_all_digits (l : List Char) (hne : l ≠ [])
    (hall : l.all isPyHexDigit = true) :
    pyIntParse16 l = some ((hexListVal l : ℕ) : ℤ) := by
  cases l with
  | nil => exact absurd rfl hne
  | cons c cs =>
    rw [List.all_cons, Bool.and_eq_true] at hall
    obtain ⟨hc, hcs⟩ := hall
    have hdw : (c :: cs).dropWhile isPySpace = c :: cs := by
      rw [List.dropWhile_cons]
      simp [isPySpace_of_isPyHexDigit hc]
    have hsg : pySignSplit (c :: cs) = (1, c :: cs) := by
      simp [pySignSplit, hexDigit_ne_plus hc, hexDigit_ne_minus hc]
    have hsk : skipRadix (c :: cs) = c :: cs := by
      cases cs with
      | nil => rfl
      | cons c1 cs1 =>
        rw [List.all_cons, Bool.and_eq_true] at hcs
        simp [skipRadix, hexDigit_ne_x hcs.1, hexDigit_ne_X hcs.1]
    have hv : hexListVal (c :: cs) =
        List.foldl (fun a d => 16 * a + hexDigitVal d) (hexDigitVal c) cs := by
      show List.foldl _ 0 (c :: cs) = _
      rw [List.foldl_cons]
      norm_num
    simp only [pyIntParse16, hdw, hsg, hsk, hc, if_true,
      digitsTail_all_digits (hexDigitVal c) cs hcs, List.all_nil, hv, one_mul]

theorem pyIntHex_all_digits (x : String) (hne : x.data ≠ [])
    (hall : x.data.all isPyHexDigit = true) :
    pyIntHex x = .ok ((hexListVal x.data : ℕ) : ℤ) := by
  unfold pyIntHex
  rw [pyIntParse16_all_digits x.data hne hall]

theorem pyIntHex_of_none (x : String) (h : pyIntParse16 x.data = none) :
    pyIntHex x = .error (.valueError x) := by
  unfold pyIntHex
  rw [h]

/-! ### Helper lemmas: the exporters on a single file -/

theorem create_ios_images_singleton (p content : String) (h : isSvgName p = true) :
    create_ios_images [{ path := p, content := content }] =
      [ { path := "xamarin/ios/" ++
            (if occursIn ("svg/filled").data (foundPath p).data
              then "filled_" ++ ios_no_ext (basename (foundPath p))
              else ios_no_ext (basename (foundPath p))) ++ ".png",
          width := 24, height := 24, source := content },
        { path := "xamarin/ios/" ++
            (if occursIn ("svg/filled").data (foundPath p).data
              then "filled_" ++ ios_no_ext (basename (foundPath p))
              else ios_no_ext (basename (foundPath p))) ++ "@2x.png",
          width := 48, height := 48, source := content },
        { path := "xamarin/ios/" ++
            (if occursIn ("svg/filled").data (foundPath p).data
              then "filled_" ++ ios_no_ext (basename (foundPath p))
              else ios_no_ext (basename (foundPath p))) ++ "@3x.png",
          width := 72, height := 72, source := content } ] := by
  simp only [create_ios_images, List.filter_cons, List.filter_nil]
  simp [h]

theorem create_android_images_singleton (p content : String) (h : isSvgName p = true) :
    create_android_images [{ path := p, content := content }] =
      [ { path := "xamarin/android/drawable/" ++ android_no_ext (basename (foundPath p)) ++ ".png",
          width := 60, height := 60, source := content },
        { path := "xamarin/android/drawable-hdpi/" ++ android_no_ext (basename (foundPath p)) ++ ".png",
          width := 48, height := 48, source := content },
        { path := "xamarin/android/drawable-xhdpi/" ++ android_no_ext (basename (foundPath p)) ++ ".png",
          width := 64, height := 64, source := content },
        { path := "xamarin/android/drawable-xxhdpi/" ++ android_no_ext (basename (foundPath p)) ++ ".png",
          width := 96, height := 96, source := content },
        { path := "xamarin/android/drawable-xxxhdpi/" ++ android_no_ext (basename (foundPath p)) ++ ".png",
          width := 128, height := 128, source := content } ] := by
  simp only [create_android_images, List.filter_cons, List.filter_nil]
  simp [h]

/-! ### Claim theorems -/

/-- C1: on a source tree holding exactly `svg/icon-one.svg` containing a
`fill="black"` attribute, the full pipeline run with fill color `"red"`
succeeds and produces under `ios/` exactly the three PNGs `icon_one.png`,
`icon_one@2x.png`, `icon_one@3x.png` at 24×24, 48×48, 72×72 pixels, and
under the five Android buckets `drawable`, `drawable-hdpi`,
`drawable-xhdpi`, `drawable-xxhdpi`, `drawable-xxxhdpi` exactly one
`icon_one.png` each, at 60×60, 48×48, 64×64, 96×96, 128×128 pixels. -/
theorem claim_c1 :
    (generate_images "red" "black"
        { svgTree := [{ path := "icon-one.svg", content := "<svg fill=\"black\"></svg>" }],
          xamarin := none }).1 = Except.ok ()
    ∧ (generate_images "red" "black"
        { svgTree := [{ path := "icon-one.svg", content := "<svg fill=\"black\"></svg>" }],
          xamarin := none }).2.xamarin.map
        (fun x => x.ios.map fun p => (p.path, p.width, p.height)) =
      some [("xamarin/ios/icon_one.png", 24, 24), ("xamarin/ios/icon_one@2x.png", 48, 48),
        ("xamarin/ios/icon_one@3x.png", 72, 72)]
    ∧ (generate_images "red" "black"
        { svgTree := [{ path := "icon-one.svg", content := "<svg fill=\"black\"></svg>" }],
          xamarin := none }).2.xamarin.map
        (fun x => x.android.map fun p => (p.path, p.width, p.height)) =
      some [("xamarin/android/drawable/icon_one.png", 60, 60),
        ("xamarin/android/drawable-hdpi/icon_one.png", 48, 48),
        ("xamarin/android/drawable-xhdpi/icon_one.png", 64, 64),
        ("xamarin/android/drawable-xxhdpi/icon_one.png", 96, 96),
        ("xamarin/android/drawable-xxxhdpi/icon_one.png", 128, 128)] := by
  refine ⟨?_, ?_, ?_⟩ <;> decide

/-- C2 counterexample: for the source file `svg/filled/star.svg`, the
Android exporter names its outputs `star.png`, not `filled_star.png`, while
the iOS exporter does use the `filled_` prefix — so the claim that both
exporters use the `filled_`-prefixed base name is false. -/
theorem claim_c2_counterexample :
    (create_android_images [{ path := "filled/star.svg", content := "c" }]).map Png.path =
      ["xamarin/android/drawable/star.png", "xamarin/android/drawable-hdpi/star.png",
        "xamarin/android/drawable-xhdpi/star.png", "xamarin/android/drawable-xxhdpi/star.png",
        "xamarin/android/drawable-xxxhdpi/star.png"]
    ∧ (create_ios_images [{ path := "filled/star.svg", content := "c" }]).map Png.path =
      ["xamarin/ios/filled_star.png", "xamarin/ios/filled_star@2x.png",
        "xamarin/ios/filled_star@3x.png"]
    ∧ ("xamarin/android/drawable/star.png" : String) ≠
        "xamarin/android/drawable/filled_star.png" := by
  refine ⟨?_, ?_, ?_⟩ <;> decide

/-- C2 (amended): for a source SVG directly under the `filled`
subdirectory, the iOS exporter's three filenames carry the `filled_`
prefix, but the Android exporter's five bucket filenames use the
unprefixed base name: the `filled_` rule is applied by the iOS exporter
only. -/
theorem claim_c2_amended (rest content : String)
    (h : isSvgName ("filled/" ++ rest) = true) :
    (create_ios_images [{ path := "filled/" ++ rest, content := content }]).map Png.path =
      ["xamarin/ios/" ++ ("filled_" ++ ios_no_ext (basename (foundPath ("filled/" ++ rest)))) ++ ".png",
       "xamarin/ios/" ++ ("filled_" ++ ios_no_ext (basename (foundPath ("filled/" ++ rest)))) ++ "@2x.png",
       "xamarin/ios/" ++ ("filled_" ++ ios_no_ext (basename (foundPath ("filled/" ++ rest)))) ++ "@3x.png"]
    ∧ (create_android_images [{ path := "filled/" ++ rest, content := content }]).map Png.path =
      ["xamarin/android/drawable/" ++ android_no_ext (basename (foundPath ("filled/" ++ rest))) ++ ".png",
       "xamarin/android/drawable-hdpi/" ++ android_no_ext (basename (foundPath ("filled/" ++ rest))) ++ ".png",
       "xamarin/android/drawable-xhdpi/" ++ android_no_ext (basename (foundPath ("filled/" ++ rest))) ++ ".png",
       "xamarin/android/drawable-xxhdpi/" ++ android_no_ext (basename (foundPath ("filled/" ++ rest))) ++ ".png",
       "xamarin/android/drawable-xxxhdpi/" ++ android_no_ext (basename (foundPath ("filled/" ++ rest))) ++ ".png"] := by
  have hocc : occursIn ("svg/filled").data (foundPath ("filled/" ++ rest)).data = true := by
    show occursIn ("svg/filled").data
      ("xamarin/".data ++ (("svg/filled").data ++ ("/".data ++ rest.data))) = true
    exact occursIn_middle _ _ _
  constructor
  · rw [create_ios_images_singleton _ _ h]
    simp [hocc]
  · rw [create_android_images_singleton _ _ h]
    simp

/-- C2 witness: the amended theorem applied to `filled/star.svg`. -/
theorem claim_c2_witness :
    (create_ios_images [{ path := ("filled/star.svg" : String), content := "w" }]).map Png.path =
      ["xamarin/ios/filled_star.png", "xamarin/ios/filled_star@2x.png",
        "xamarin/ios/filled_star@3x.png"]
    ∧ (create_android_images [{ path := ("filled/star.svg" : String), content := "w" }]).map Png.path =
      ["xamarin/android/drawable/star.png", "xamarin/android/drawable-hdpi/star.png",
        "xamarin/android/drawable-xhdpi/star.png", "xamarin/android/drawable-xxhdpi/star.png",
        "xamarin/android/drawable-xxxhdpi/star.png"] := by
  have h := claim_c2_amended "star.svg" "w" (by decide)
  exact ⟨h.1, h.2⟩

/-- C9: the iOS exporter applies the `filled_` prefix exactly when the
reported path of the file contains the substring `svg/filled`; in
particular `svg/filled-extra/x.svg` gets the prefix while
`svg/a/filled/x.svg` does not. -/
theorem claim_c9 :
    (∀ p content : String, isSvgName p = true →
      (create_ios_images [{ path := p, content := content }]).map Png.path =
        (if occursIn ("svg/filled").data (foundPath p).data
          then ["xamarin/ios/" ++ ("filled_" ++ ios_no_ext (basename (foundPath p))) ++ ".png",
                "xamarin/ios/" ++ ("filled_" ++ ios_no_ext (basename (foundPath p))) ++ "@2x.png",
                "xamarin/ios/" ++ ("filled_" ++ ios_no_ext (basename (foundPath p))) ++ "@3x.png"]
          else ["xamarin/ios/" ++ ios_no_ext (basename (foundPath p)) ++ ".png",
                "xamarin/ios/" ++ ios_no_ext (basename (foundPath p)) ++ "@2x.png",
                "xamarin/ios/" ++ ios_no_ext (basename (foundPath p)) ++ "@3x.png"]))
    ∧ occursIn ("svg/filled").data (foundPath "filled-extra/x.svg").data = true
    ∧ occursIn ("svg/filled").data (foundPath "a/filled/x.svg").data = false := by
  refine ⟨?_, by decide, by decide⟩
  intro p content h
  rw [create_ios_images_singleton p content h]
  by_cases hc : occursIn ("svg/filled").data (foundPath p).data
  · simp [hc]
  · simp [hc]

/-- C9 witness: the classification applied to `filled-extra/x.svg`, which
is prefixed although it is not under a directory named `filled`. -/
theorem claim_c9_witness :
    (create_ios_images [{ path := ("filled-extra/x.svg" : String), content := "w" }]).map Png.path =
      ["xamarin/ios/filled_x.png", "xamarin/ios/filled_x@2x.png", "xamarin/ios/filled_x@3x.png"] := by
  have h := claim_c9.1 "filled-extra/x.svg" "w" (by decide)
  rw [h]
  decide

/-- C10: both exporters derive the output base name by removing every
occurrence of `.svg` (left to right, not just a trailing extension) and
then turning every hyphen into an underscore; `icon.svg.svg` yields
`icon` and `a-b.svgc.svg` yields `a_bc`. -/
theorem claim_c10 :
    (∀ filename : String, ios_no_ext filename = android_no_ext filename
      ∧ ios_no_ext filename = pyReplace (pyReplace filename ".svg" "") "-" "_")
    ∧ ios_no_ext "icon.svg.svg" = "icon"
    ∧ android_no_ext "icon.svg.svg" = "icon"
    ∧ ios_no_ext "a-b.svgc.svg" = "a_bc"
    ∧ android_no_ext "a-b.svgc.svg" = "a_bc" := by
  refine ⟨fun filename => ⟨rfl, rfl⟩, by decide, by decide, by decide, by decide⟩

/-- C5: the recolor passes replace every occurrence of the exact strings
`fill="black"` and `stroke="black"` by the fill and stroke colors
(case-sensitive, global, in place, per the `replaceAll` semantics of the
two sed passes); a file containing neither exact string is byte-for-byte
unchanged, and on a file containing `fill="black" stroke="black"` with
colors `#112233`/`#445566` the result is
`fill="#112233" stroke="#445566"` with no literal black fill/stroke
attribute left. -/
theorem claim_c5 :
    (∀ (fillHex strokeHex : String) (f : SvgFile),
       occursIn ("fill=\"black\"").data f.content.data = false →
       occursIn ("stroke=\"black\"").data f.content.data = false →
       sed_stroke_file strokeHex (sed_fill_file fillHex f) = f)
    ∧ (sed_stroke_file "#445566" (sed_fill_file "#112233"
        { path := "a.svg", content := "fill=\"black\" stroke=\"black\"" })).content =
      "fill=\"#112233\" stroke=\"#445566\""
    ∧ occursIn ("fill=\"black\"").data ("fill=\"#112233\" stroke=\"#445566\"").data = false
    ∧ occursIn ("stroke=\"black\"").data ("fill=\"#112233\" stroke=\"#445566\"").data = false := by
  refine ⟨?_, by decide, by decide, by decide⟩
  intro fillHex strokeHex f hf hs
  have e1 : sedReplaceAll "fill=\"black\"" ("fill=\"" ++ fillHex ++ "\"") f.content = f.content := by
    show (⟨replaceAll ("fill=\"black\"").data ("fill=\"" ++ fillHex ++ "\"").data f.content.data⟩ :
      String) = f.content
    rw [replaceAll_of_not_occurs _ _ _ hf]
  have e2 : sedReplaceAll "stroke=\"black\"" ("stroke=\"" ++ strokeHex ++ "\"") f.content = f.content := by
    show (⟨replaceAll ("stroke=\"black\"").data ("stroke=\"" ++ strokeHex ++ "\"").data f.content.data⟩ :
      String) = f.content
    rw [replaceAll_of_not_occurs _ _ _ hs]
  by_cases hsvg : isSvgName f.path
  · simp [sed_fill_file, sed_stroke_file, hsvg, e1, e2]
  · simp [sed_fill_file, sed_stroke_file, hsvg]

/-- C5 witness: a file with no black fill/stroke attribute is returned
byte-for-byte unchanged by both passes. -/
theorem claim_c5_witness :
    sed_stroke_file "#445566" (sed_fill_file "#112233"
      { path := ("icon.svg" : String), content := "<svg fill=\"red\"/>" }) =
      { path := "icon.svg", content := "<svg fill=\"red\"/>" } :=
  claim_c5.1 "#112233" "#445566"
    { path := "icon.svg", content := "<svg fill=\"red\"/>" } (by decide) (by decide)

/-- C6: if the fill color or the stroke color is a name (not starting
with `#`) absent from the named-color table, the run fails with the
`GenerationError` built from the offending name, whose message carries
that name and every valid color name, and the filesystem state is
returned untouched: both `parse_color` calls precede `cleanup`, the first
mutation. -/
theorem claim_c6 (color stroke : String) (fs : FS) :
    (pyStartsWith "#" color = false → List.lookup color cnames = none →
      (generate_images color stroke fs).1 =
          Except.error (.generation (invalidColorMessage color))
        ∧ (generate_images color stroke fs).2 = fs)
    ∧ (∀ chex, parse_color color = .ok chex →
        pyStartsWith "#" stroke = false → List.lookup stroke cnames = none →
        (generate_images color stroke fs).1 =
            Except.error (.generation (invalidColorMessage stroke))
          ∧ (generate_images color stroke fs).2 = fs)
    ∧ (∀ name : String, occursIn name.data (invalidColorMessage name).data = true)
    ∧ (∀ name : String, ∀ k ∈ cnames.map Prod.fst,
        occursIn k.data (invalidColorMessage name).data = true) := by
  refine ⟨?_, ?_, ?_, ?_⟩
  · intro hq1 hq2
    have hp : parse_color color = .error (.generation (invalidColorMessage color)) := by
      simp [parse_color, hq1, hq2]
    exact ⟨by simp [generate_images, hp], by simp [generate_images, hp]⟩
  · intro chex hok hq1 hq2
    have hp : parse_color stroke = .error (.generation (invalidColorMessage stroke)) := by
      simp [parse_color, hq1, hq2]
    exact ⟨by simp [generate_images, hok, hp], by simp [generate_images, hok, hp]⟩
  · intro name
    unfold invalidColorMessage
    simp only [String.data_append, List.append_assoc]
    exact occursIn_middle _ _ _
  · intro name k hk
    unfold invalidColorMessage
    simp only [String.data_append]
    exact occursIn_append_right _ _ _ (occursIn_joinStr ", " k (cnames.map Prod.fst) hk)

/-- C6 witness: the invalid fill name `not-a-color` with stroke `black`,
and the valid fill `red` with invalid stroke name `not-a-color`; the
message contains the offending name and (instantiating the quantifier)
the valid name `red`. -/
theorem claim_c6_witness :
    (generate_images "not-a-color" "black" (FS.mk [] none)).1 =
      Except.error (.generation (invalidColorMessage "not-a-color"))
    ∧ (generate_images "red" "not-a-color" (FS.mk [] none)).1 =
      Except.error (.generation (invalidColorMessage "not-a-color"))
    ∧ (generate_images "red" "not-a-color" (FS.mk [] none)).2 = FS.mk [] none
    ∧ occursIn ("not-a-color" : String).data (invalidColorMessage "not-a-color").data = true
    ∧ occursIn ("red" : String).data (invalidColorMessage "not-a-color").data = true := by
  refine ⟨?_, ?_, ?_, ?_, ?_⟩
  · exact ((claim_c6 "not-a-color" "black" (FS.mk [] none)).1 (by decide) (by decide)).1
  · exact ((claim_c6 "red" "not-a-color" (FS.mk [] none)).2.1 "#FF0000" (by decide)
      (by decide) (by decide)).1
  · exact ((claim_c6 "red" "not-a-color" (FS.mk [] none)).2.1 "#FF0000" (by decide)
      (by decide) (by decide)).2
  · exact (claim_c6 "x" "y" (FS.mk [] none)).2.2.1 "not-a-color"
  · exact (claim_c6 "x" "y" (FS.mk [] none)).2.2.2 "not-a-color" "red" (by decide)

/-- C7: a successful run's final `xamarin/` content is a function of the
source `svg/` tree and the colors alone — whatever `xamarin/` held
beforehand is discarded by the initial reset, so two runs over the same
source tree end with identical output and nothing from an earlier run (for
example an earlier color) survives. -/
theorem claim_c7 (fill stroke : String) (fs gs : FS)
    (hsvg : fs.svgTree = gs.svgTree)
    (hok : (generate_images fill stroke fs).1 = Except.ok ()) :
    (generate_images fill stroke gs).1 = Except.ok ()
    ∧ (generate_images fill stroke fs).2.xamarin = (generate_images fill stroke gs).2.xamarin := by
  have key : ∀ h : FS, ∀ fhex shex : String,
      (create_android_images_step (create_ios_images_step
        (replace_color_on_svgs fhex shex (copy_svg_to_xamarin (cleanup h))))).xamarin =
      some { svg := (h.svgTree.map (sed_fill_file fhex)).map (sed_stroke_file shex),
             ios := create_ios_images ((h.svgTree.map (sed_fill_file fhex)).map (sed_stroke_file shex)),
             android := create_android_images
               ((h.svgTree.map (sed_fill_file fhex)).map (sed_stroke_file shex)) } :=
    fun _ _ _ => rfl
  cases hpf : parse_color fill with
  | error e =>
    exfalso
    have hg : generate_images fill stroke fs = (.error e, fs) := by
      simp [generate_images, hpf]
    rw [hg] at hok
    simp at hok
  | ok fhex =>
    cases hps : parse_color stroke with
    | error e =>
      exfalso
      have hg : generate_images fill stroke fs = (.error e, fs) := by
        simp [generate_images, hpf, hps]
      rw [hg] at hok
      simp at hok
    | ok shex =>
      cases hcb : color_too_bright fill with
      | error e =>
        exfalso
        have hg : generate_images fill stroke fs = (.error e, fs) := by
          simp [generate_images, hpf, hps, hcb]
        rw [hg] at hok
        simp at hok
      | ok b =>
        cases hgc : get_complementary_color fhex with
        | error e =>
          exfalso
          have hg : generate_images fill stroke fs = (.error e, fs) := by
            simp [generate_images, hpf, hps, hcb, hgc]
          rw [hg] at hok
          simp at hok
        | ok comp =>
          have hgen : ∀ h : FS, generate_images fill stroke h =
              (.ok (), create_android_images_step (create_ios_images_step
                (replace_color_on_svgs fhex shex (copy_svg_to_xamarin (cleanup h))))) := by
            intro h
            simp [generate_images, hpf, hps, hcb, hgc]
          rw [hgen fs, hgen gs]
          refine ⟨rfl, ?_⟩
          rw [key fs fhex shex, key gs fhex shex, hsvg]

/-- C7 witness: the same one-file source tree with two different prior
`xamarin/` contents (one holding stale output, one absent) ends in the
same final output. -/
theorem claim_c7_witness :
    (generate_images "red" "black"
      (FS.mk [SvgFile.mk "a.svg" "<svg fill=\"black\"/>"]
        (some (XamarinDir.mk [SvgFile.mk "junk.svg" "old"]
          [Png.mk "xamarin/ios/old.png" 1 1 "o"] [])))).1 = Except.ok ()
    ∧ (generate_images "red" "black"
      (FS.mk [SvgFile.mk "a.svg" "<svg fill=\"black\"/>"]
        (some (XamarinDir.mk [SvgFile.mk "junk.svg" "old"]
          [Png.mk "xamarin/ios/old.png" 1 1 "o"] [])))).2.xamarin =
      (generate_images "red" "black"
        (FS.mk [SvgFile.mk "a.svg" "<svg fill=\"black\"/>"] none)).2.xamarin := by
  have h := claim_c7 "red" "black"
    (FS.mk [SvgFile.mk "a.svg" "<svg fill=\"black\"/>"]
      (some (XamarinDir.mk [SvgFile.mk "junk.svg" "old"]
        [Png.mk "xamarin/ios/old.png" 1 1 "o"] [])))
    (FS.mk [SvgFile.mk "a.svg" "<svg fill=\"black\"/>"] none)
    rfl (by decide)
  exact ⟨by decide, h.2⟩

/-- C3 counterexample: `#20FF00` parses to bytes 32, 255, 0; the claimed
formula (587 on the second byte) gives 159.253 > 155, so the claim
predicts bright, but `color_too_bright` returns false because the code
puts the 114 weight on the second parsed byte and 587 on the third,
giving 38.638. -/
theorem claim_c3_counterexample :
    color_too_bright "#20FF00" = .ok false ∧ claimedBrightness 32 255 0 = true := by
  constructor
  · have h1 : color_too_bright "#20FF00" =
        .ok (decide ((155 : ℚ) < ((38638 : ℤ) : ℚ) / 1000)) := rfl
    rw [h1, brightness_decide_int]
    decide
  · have h1 : claimedBrightness 32 255 0 =
        decide ((155 : ℚ) < ((159253 : ℕ) : ℚ) / 1000) := rfl
    rw [h1, brightness_decide]
    decide

/-- C3 (amended): for every color input resolving to `#` followed by six
hex digits with byte values b0, b1, b2 parsed from positions [0:2), [2:4),
[4:6), `color_too_bright` returns true iff
(b0*299 + b2*587 + b1*114) / 1000 > 155: the weights 299, 587 and 114 fall
on the first, third and second parsed bytes respectively. -/
theorem claim_c3_amended (color chex : String) (d0 d1 d2 d3 d4 d5 : Char)
    (hp : parse_color color = .ok chex)
    (hd : chex.data = ['#', d0, d1, d2, d3, d4, d5])
    (hhex : ([d0, d1, d2, d3, d4, d5].all isPyHexDigit) = true) :
    color_too_bright color =
      .ok (decide ((155 : ℚ) <
        (((16 * hexDigitVal d0 + hexDigitVal d1) * 299 +
          (16 * hexDigitVal d4 + hexDigitVal d5) * 587 +
          (16 * hexDigitVal d2 + hexDigitVal d3) * 114 : ℕ) : ℚ) / 1000)) := by
  simp only [List.all_cons, List.all_nil, Bool.and_eq_true, Bool.and_true] at hhex
  obtain ⟨h0, h1, h2, h3, h4, h5⟩ := hhex
  have hdrop1 : (strDrop 1 chex) = (⟨[d0, d1, d2, d3, d4, d5]⟩ : String) := by
    show (⟨chex.data.drop 1⟩ : String) = _
    rw [hd]
    rfl
  have e1 : pyIntHex (strTake 2 (strDrop 1 chex)) =
      .ok ((16 * hexDigitVal d0 + hexDigitVal d1 : ℕ) : ℤ) := by
    rw [hdrop1]
    show pyIntHex (⟨[d0, d1]⟩ : String) = _
    rw [pyIntHex_all_digits (⟨[d0, d1]⟩ : String) (List.cons_ne_nil d0 [d1]) (by simp [h0, h1])]
    show Except.ok ((hexListVal [d0, d1] : ℕ) : ℤ) = _
    have : hexListVal [d0, d1] = 16 * hexDigitVal d0 + hexDigitVal d1 := by
      show 16 * (16 * 0 + hexDigitVal d0) + hexDigitVal d1 = _
      norm_num
    rw [this]
  have e2 : pyIntHex (strTake 2 (strDrop 2 (strDrop 1 chex))) =
      .ok ((16 * hexDigitVal d2 + hexDigitVal d3 : ℕ) : ℤ) := by
    rw [hdrop1]
    show pyIntHex (⟨[d2, d3]⟩ : String) = _
    rw [pyIntHex_all_digits (⟨[d2, d3]⟩ : String) (List.cons_ne_nil d2 [d3]) (by simp [h2, h3])]
    show Except.ok ((hexListVal [d2, d3] : ℕ) : ℤ) = _
    have : hexListVal [d2, d3] = 16 * hexDigitVal d2 + hexDigitVal d3 := by
      show 16 * (16 * 0 + hexDigitVal d2) + hexDigitVal d3 = _
      norm_num
    rw [this]
  have e3 : pyIntHex (strDrop 4 (strDrop 1 chex)) =
      .ok ((16 * hexDigitVal d4 + hexDigitVal d5 : ℕ) : ℤ) := by
    rw [hdrop1]
    show pyIntHex (⟨[d4, d5]⟩ : String) = _
    rw [pyIntHex_all_digits (⟨[d4, d5]⟩ : String) (List.cons_ne_nil d4 [d5]) (by simp [h4, h5])]
    show Except.ok ((hexListVal [d4, d5] : ℕ) : ℤ) = _
    have : hexListVal [d4, d5] = 16 * hexDigitVal d4 + hexDigitVal d5 := by
      show 16 * (16 * 0 + hexDigitVal d4) + hexDigitVal d5 = _
      norm_num
    rw [this]
  simp only [color_too_bright, hp, e1, e2, e3]
  have hz : ((16 * hexDigitVal d0 + hexDigitVal d1 : ℕ) : ℤ) * 299 +
      ((16 * hexDigitVal d4 + hexDigitVal d5 : ℕ) : ℤ) * 587 +
      ((16 * hexDigitVal d2 + hexDigitVal d3 : ℕ) : ℤ) * 114 =
      (((16 * hexDigitVal d0 + hexDigitVal d1) * 299 +
        (16 * hexDigitVal d4 + hexDigitVal d5) * 587 +
        (16 * hexDigitVal d2 + hexDigitVal d3) * 114 : ℕ) : ℤ) := by
    push_cast
    ring
  rw [hz, Int.cast_natCast]

/-- C3 witness: the amended formula applied to `#FFFFFF`, which is
classified bright. -/
theorem claim_c3_witness : color_too_bright "#FFFFFF" = .ok true := by
  have h := claim_c3_amended "#FFFFFF" "#FFFFFF" 'F' 'F' 'F' 'F' 'F' 'F' rfl rfl (by decide)
  rw [h]
  have e : (16 * hexDigitVal 'F' + hexDigitVal 'F') * 299 +
      (16 * hexDigitVal 'F' + hexDigitVal 'F') * 587 +
      (16 * hexDigitVal 'F' + hexDigitVal 'F') * 114 = 255000 := by decide
  rw [e, brightness_decide]
  decide

theorem pyIntHex_error_shape (x : String) (e : PipeError) (h : pyIntHex x = .error e) :
    e = .valueError x := by
  unfold pyIntHex at h
  cases hp : pyIntParse16 x.data with
  | some v =>
    rw [hp] at h
    simp at h
  | none =>
    rw [hp] at h
    simp at h
    exact h.symm

theorem color_too_bright_error_val (s : String) (e : PipeError)
    (hps : parse_color s = .ok s) (hcb : color_too_bright s = .error e) :
    ∃ lit, e = .valueError lit := by
  cases hc1 : pyIntHex (strTake 2 (strDrop 1 s)) with
  | error e1 =>
    refine ⟨strTake 2 (strDrop 1 s), ?_⟩
    have hctb : color_too_bright s = .error e1 := by
      simp [color_too_bright, hps, hc1]
    rw [hctb] at hcb
    simp at hcb
    rw [← hcb]
    exact pyIntHex_error_shape _ _ hc1
  | ok n1 =>
    cases hc2 : pyIntHex (strTake 2 (strDrop 2 (strDrop 1 s))) with
    | error e2 =>
      refine ⟨strTake 2 (strDrop 2 (strDrop 1 s)), ?_⟩
      have hctb : color_too_bright s = .error e2 := by
        simp [color_too_bright, hps, hc1, hc2]
      rw [hctb] at hcb
      simp at hcb
      rw [← hcb]
      exact pyIntHex_error_shape _ _ hc2
    | ok n2 =>
      cases hc3 : pyIntHex (strDrop 4 (strDrop 1 s)) with
      | error e3 =>
        refine ⟨strDrop 4 (strDrop 1 s), ?_⟩
        have hctb : color_too_bright s = .error e3 := by
          simp [color_too_bright, hps, hc1, hc2, hc3]
        rw [hctb] at hcb
        simp at hcb
        rw [← hcb]
        exact pyIntHex_error_shape _ _ hc3
      | ok n3 =>
        exfalso
        simp [color_too_bright, hps, hc1, hc2, hc3] at hcb

/-- C8 counterexample: for fill input `#zzzzzz` the pipeline fails with the
raw int-parse `ValueError` raised inside `color_too_bright` on the slice
`zz` — not with the error `get_complementary_color` would raise (whose
literal is `zzzzzz`): for this input the failure happens while computing
the brightness classification, which runs first, not while computing the
complementary color. -/
theorem claim_c8_counterexample :
    (generate_images "#zzzzzz" "black" (FS.mk [] none)).1 =
      Except.error (.valueError "zz")
    ∧ color_too_bright "#zzzzzz" = .error (.valueError "zz")
    ∧ get_complementary_color "#zzzzzz" = .error (.valueError "zzzzzz")
    ∧ PipeError.valueError "zz" ≠ PipeError.valueError "zzzzzz" := by
  refine ⟨?_, ?_, ?_, ?_⟩ <;> decide

/-- C8 (amended): an input starting with `#` is returned unchanged by
`parse_color` (no validation of length or digits); when the ASCII
remainder after `#` is rejected by the `int(_, 16)` grammar (surrounding
whitespace, an optional sign, an optional `0x` marker and underscores
between digits are all accepted), the pipeline fails with a raw
`ValueError` — never a `GenerationError` — before any filesystem mutation,
raised at the first parse that fails: inside `color_too_bright` (the
brightness classification, which runs first) when one of its three slices
is rejected, otherwise inside `get_complementary_color` on the full
remainder. -/
theorem claim_c8_amended (s stroke shex : String) (fs : FS)
    (h1 : pyStartsWith "#" s = true)
    (hascii : (strDrop 1 s).data.all (fun c => decide (c.toNat < 128)) = true)
    (h2 : pyIntParse16 (strDrop 1 s).data = none)
    (h3 : parse_color stroke = .ok shex) :
    parse_color s = .ok s
    ∧ (generate_images s stroke fs).2 = fs
    ∧ ∃ lit, (generate_images s stroke fs).1 = .error (.valueError lit)
        ∧ (color_too_bright s = .error (.valueError lit)
          ∨ ∃ b, color_too_bright s = .ok b
              ∧ get_complementary_color s = .error (.valueError lit)) := by
  have hps : parse_color s = .ok s := by simp [parse_color, h1]
  cases hcb : color_too_bright s with
  | error e =>
    obtain ⟨lit, hlit⟩ := color_too_bright_error_val s e hps hcb
    subst hlit
    have hg : generate_images s stroke fs = (.error (.valueError lit), fs) := by
      simp [generate_images, hps, h3, hcb]
    exact ⟨hps, by rw [hg], lit, by rw [hg], Or.inl rfl⟩
  | ok b =>
    have hgcc : get_complementary_color s = .error (.valueError (strDrop 1 s)) := by
      have hpe : pyIntHex (strDrop 1 s) = .error (.valueError (strDrop 1 s)) :=
        pyIntHex_of_none (strDrop 1 s) h2
      simp [get_complementary_color, hpe]
    have hg : generate_images s stroke fs = (.error (.valueError (strDrop 1 s)), fs) := by
      simp [generate_images, hps, h3, hcb, hgcc]
    exact ⟨hps, by rw [hg], strDrop 1 s, by rw [hg], Or.inr ⟨b, rfl, hgcc⟩⟩

/-- C8 witness: the amended theorem at fill `#xyz` with stroke `black`. -/
theorem claim_c8_witness :
    parse_color "#xyz" = Except.ok "#xyz"
    ∧ (generate_images "#xyz" "black" (FS.mk [] none)).2 = FS.mk [] none := by
  have h := claim_c8_amended "#xyz" "black" "#000000" (FS.mk [] none)
    (by decide) (by decide) (by decide) (by decide)
  exact ⟨h.1, h.2.1⟩

/-- C4 counterexample: the claim quantifies over upper- or lower-case hex
digits, but `#ff0000` double-complements to `#FF0000` (the formatter emits
uppercase), which is a different string. -/
theorem pyFormatHex06_eq (n : Nat) (h : n < 16 ^ 6) (l : List Char)
    (he : hexFix 6 n = l) : pyFormatHex06 n = (⟨l⟩ : String) := by
  show (⟨List.replicate (6 - (natHexDigits n).length) '0' ++ natHexDigits n⟩ : String) = _
  congr 1
  rw [natHexDigits_eq_aux6 n h, pad_natHexDigitsAux 6 n (by norm_num) h, he]

theorem claim_c4_counterexample :
    (get_complementary_color "#ff0000").bind get_complementary_color =
      Except.ok ("#FF0000" : String)
    ∧ ("#FF0000" : String) ≠ "#ff0000" := by
  constructor
  · have hok1 : pyIntHex (strDrop 1 ("#ff0000" : String)) = .ok (16711680 : ℤ) := by decide
    have hfirst : get_complementary_color "#ff0000" =
        .ok ("#" ++ pyFormatHex06Int (pyIntXor 0xFFFFFF (16711680 : ℤ))) := by
      simp only [get_complementary_color, hok1]
    have hx1 : pyIntXor 0xFFFFFF (16711680 : ℤ) = (65535 : ℤ) := by decide
    have hfmt1 : pyFormatHex06Int (65535 : ℤ) = ("00FFFF" : String) := by
      show pyFormatHex06 65535 = _
      exact pyFormatHex06_eq 65535 (by norm_num) ("00FFFF" : String).data (by decide)
    rw [hfirst, hx1, hfmt1]
    show get_complementary_color ("#" ++ ("00FFFF" : String)) = Except.ok ("#FF0000" : String)
    have hscrut2 : pyIntHex (strDrop 1 ("#" ++ ("00FFFF" : String))) = .ok (65535 : ℤ) := by
      decide
    have hsecond : get_complementary_color ("#" ++ ("00FFFF" : String)) =
        .ok ("#" ++ pyFormatHex06Int (pyIntXor 0xFFFFFF (65535 : ℤ))) := by
      simp only [get_complementary_color, hscrut2]
    have hx2 : pyIntXor 0xFFFFFF (65535 : ℤ) = (16711680 : ℤ) := by decide
    have hfmt2 : pyFormatHex06Int (16711680 : ℤ) = ("FF0000" : String) := by
      show pyFormatHex06 16711680 = _
      exact pyFormatHex06_eq 16711680 (by norm_num) ("FF0000" : String).data (by decide)
    rw [hsecond, hx2, hfmt2]
    rfl
  · decide

/-- C4 (amended): applying the complementary-color function twice is the
identity on every string of a `#` followed by six uppercase hex digits
(digits `0-9A-F`, the alphabet `%06X` emits); for lowercase digits the
round trip returns the uppercase form instead of the original. -/
theorem claim_c4_amended (d0 d1 d2 d3 d4 d5 : Char)
    (h : ([d0, d1, d2, d3, d4, d5].all isUpperHexDigit) = true) :
    (get_complementary_color (⟨['#', d0, d1, d2, d3, d4, d5]⟩ : String)).bind
        get_complementary_color =
      Except.ok (⟨['#', d0, d1, d2, d3, d4, d5]⟩ : String) := by
  have hmem : ∀ c ∈ [d0, d1, d2, d3, d4, d5], isUpperHexDigit c = true := by
    simp only [List.all_eq_true] at h
    exact h
  have hpy : ∀ c ∈ [d0, d1, d2, d3, d4, d5], isPyHexDigit c = true :=
    fun c hc => isPyHexDigit_of_isUpperHexDigit (hmem c hc)
  have hvlt : ∀ c ∈ [d0, d1, d2, d3, d4, d5], hexDigitVal c < 16 :=
    fun c hc => hexDigitVal_lt_16 (hpy c hc)
  have hn : hexListVal [d0, d1, d2, d3, d4, d5] < 16 ^ 6 := by
    have h6 := hexListVal_lt [d0, d1, d2, d3, d4, d5] hvlt
    have hlen : ([d0, d1, d2, d3, d4, d5] : List Char).length = 6 := rfl
    rw [hlen] at h6
    exact h6
  have hok1 : pyIntHex (strDrop 1 (⟨['#', d0, d1, d2, d3, d4, d5]⟩ : String)) =
      .ok ((hexListVal [d0, d1, d2, d3, d4, d5] : ℕ) : ℤ) := by
    show pyIntHex (⟨[d0, d1, d2, d3, d4, d5]⟩ : String) = _
    exact pyIntHex_all_digits (⟨[d0, d1, d2, d3, d4, d5]⟩ : String)
      (List.cons_ne_nil d0 [d1, d2, d3, d4, d5])
      (by
        show ([d0, d1, d2, d3, d4, d5].all isPyHexDigit) = true
        simp only [List.all_eq_true]
        exact hpy)
  have hfirst : get_complementary_color (⟨['#', d0, d1, d2, d3, d4, d5]⟩ : String) =
      .ok ("#" ++ pyFormatHex06 (0xFFFFFF ^^^ hexListVal [d0, d1, d2, d3, d4, d5])) := by
    simp only [get_complementary_color, hok1]
    rfl
  have h2p : (16 : ℕ) ^ 6 = 2 ^ 24 := by norm_num
  have hcomp : 0xFFFFFF ^^^ hexListVal [d0, d1, d2, d3, d4, d5] < 16 ^ 6 := by
    rw [h2p]
    exact Nat.xor_lt_two_pow (by norm_num) (h2p ▸ hn)
  have hfmtdata : (pyFormatHex06 (0xFFFFFF ^^^ hexListVal [d0, d1, d2, d3, d4, d5])).data =
      hexFix 6 (0xFFFFFF ^^^ hexListVal [d0, d1, d2, d3, d4, d5]) :=
    pyFormatHex06_data _ hcomp
  have hdrop2 : strDrop 1
      ("#" ++ pyFormatHex06 (0xFFFFFF ^^^ hexListVal [d0, d1, d2, d3, d4, d5])) =
      pyFormatHex06 (0xFFFFFF ^^^ hexListVal [d0, d1, d2, d3, d4, d5]) := by
    show (⟨("#" ++ pyFormatHex06 (0xFFFFFF ^^^ hexListVal [d0, d1, d2, d3, d4, d5])).data.drop 1⟩ :
      String) = _
    rw [String.data_append]
    rfl
  have hnonempty : (pyFormatHex06 (0xFFFFFF ^^^ hexListVal [d0, d1, d2, d3, d4, d5])).data.isEmpty
      = false := by
    rw [hfmtdata]
    cases hf : hexFix 6 (0xFFFFFF ^^^ hexListVal [d0, d1, d2, d3, d4, d5]) with
    | nil =>
      have hlen := hexFix_length 6 (0xFFFFFF ^^^ hexListVal [d0, d1, d2, d3, d4, d5])
      rw [hf] at hlen
      simp at hlen
    | cons a as => rfl
  have hne2 : (pyFormatHex06 (0xFFFFFF ^^^ hexListVal [d0, d1, d2, d3, d4, d5])).data ≠ [] := by
    intro hh
    rw [hh] at hnonempty
    simp at hnonempty
  have hall2 : (pyFormatHex06 (0xFFFFFF ^^^ hexListVal [d0, d1, d2, d3, d4, d5])).data.all
      isPyHexDigit = true := by
    rw [hfmtdata]
    exact hexFix_all_hex 6 _
  have hok2 : pyIntHex (pyFormatHex06 (0xFFFFFF ^^^ hexListVal [d0, d1, d2, d3, d4, d5])) =
      .ok ((0xFFFFFF ^^^ hexListVal [d0, d1, d2, d3, d4, d5] : ℕ) : ℤ) := by
    rw [pyIntHex_all_digits _ hne2 hall2, hfmtdata, hexListVal_hexFix 6 _ hcomp]
  have hsecond : get_complementary_color
      ("#" ++ pyFormatHex06 (0xFFFFFF ^^^ hexListVal [d0, d1, d2, d3, d4, d5])) =
      .ok ("#" ++ pyFormatHex06 (hexListVal [d0, d1, d2, d3, d4, d5])) := by
    simp only [get_complementary_color, hdrop2, hok2]
    show Except.ok ("#" ++ pyFormatHex06
      (0xFFFFFF ^^^ (0xFFFFFF ^^^ hexListVal [d0, d1, d2, d3, d4, d5]))) = _
    rw [Nat.xor_cancel_left]
  have hfmt_n : pyFormatHex06 (hexListVal [d0, d1, d2, d3, d4, d5]) =
      (⟨[d0, d1, d2, d3, d4, d5]⟩ : String) := by
    show (⟨List.replicate (6 - (natHexDigits (hexListVal [d0, d1, d2, d3, d4, d5])).length) '0' ++
      natHexDigits (hexListVal [d0, d1, d2, d3, d4, d5])⟩ : String) = _
    congr 1
    rw [natHexDigits_eq_aux6 _ hn, pad_natHexDigitsAux 6 _ (by norm_num) hn]
    exact hexFix_hexListVal [d0, d1, d2, d3, d4, d5] hmem
  rw [hfirst]
  show get_complementary_color
    ("#" ++ pyFormatHex06 (0xFFFFFF ^^^ hexListVal [d0, d1, d2, d3, d4, d5])) = _
  rw [hsecond, hfmt_n]
  rfl

/-- C4 witness: the amended identity applied to `#1A2B3C`. -/
theorem claim_c4_witness :
    (get_complementary_color (⟨['#', '1', 'A', '2', 'B', '3', 'C']⟩ : String)).bind
        get_complementary_color =
      Except.ok (⟨['#', '1', 'A', '2', 'B', '3', 'C']⟩ : String) :=
  claim_c4_amended '1' 'A' '2' 'B' '3' 'C' (by decide)

end Xamarin
